import Mathlib

/-!
Verification of `stwdo_housing_alerts.py`: a shallow embedding of the
pure core of the script (option extraction from a parsed HTML document, HTML
table rendering, email-body construction) and of its effectful skeleton
(fetch / decide / notify), with network and clock effects passed in
explicitly, plus theorems settling the claims of the specification.
-/

/-- Model of Python `str.strip()`: drop whitespace characters from both
ends of the string. -/
def pyStrip (s : String) : String :=
  String.mk (((s.data.dropWhile Char.isWhitespace).reverse.dropWhile
    Char.isWhitespace).reverse)

/-- An `<option>` element: its visible text (as returned by bs4 `.text`)
and whether it carries the `disabled` attribute. -/
structure OptionElem where
  label : String
  disabled : Bool
deriving DecidableEq, Repr

/-- A node directly inside a `<select>`: either an `<option>` child, or a
wrapper element (such as `<optgroup>`) holding further options, which are
descendants of the select but not direct children. -/
inductive SelectChild where
  | opt (o : OptionElem)
  | group (opts : List OptionElem)
deriving DecidableEq, Repr

/-- A `<select>` element: its `name` attribute and its content nodes. -/
structure SelectElem where
  name : String
  children : List SelectChild
deriving DecidableEq, Repr

/-- The parsed page, reduced to the parts the CSS query
`select[name=...] > option:not([disabled])` can observe: the `<select>`
elements in document order. -/
structure Document where
  selects : List SelectElem
deriving DecidableEq, Repr

/-- The elements matched by the CSS query in the source,
`select[name="fieldName"] > option:not([disabled])`: the `>` combinator
matches only the direct `<option>` children of each matching select that
are not disabled, in document order. -/
def selectDirectChildOptions (doc : Document) (fieldName : String) :
    List OptionElem :=
  (doc.selects.filter (fun s => s.name == fieldName)).flatMap (fun s =>
    s.children.flatMap (fun c =>
      match c with
      | SelectChild.opt o => if o.disabled then [] else [o]
      | SelectChild.group _ => []))

/-- Modelled from the spec: "selects all `<option>` descendants of the
matching select that are not marked disabled" — unlike the `>`
child combinator of the source, this also collects options nested inside wrapper
elements such as `<optgroup>`. -/
def selectDescendantOptions (doc : Document) (fieldName : String) :
    List OptionElem :=
  (doc.selects.filter (fun s => s.name == fieldName)).flatMap (fun s =>
    s.children.flatMap (fun c =>
      match c with
      | SelectChild.opt o => if o.disabled then [] else [o]
      | SelectChild.group opts => opts.filter (fun o => !o.disabled)))

/-- `extract_options` from the source: take the trimmed text of each
element matched by the child-combinator query, then keep only the values
that are non-empty (Python truthiness) and different from `"All"`. -/
def extract_options (doc : Document) (field_name : String) : List String :=
  let options := (selectDirectChildOptions doc field_name).map
    (fun o => pyStrip o.label)
  options.filter (fun o => o != "" && o != "All")

/-- Modelled from the spec: the descendant-based variant of
`extract_options`, used to compare the behaviour of the source with the
wording of the spec. -/
def extractOptionsDescendants (doc : Document) (field_name : String) :
    List String :=
  ((selectDescendantOptions doc field_name).map
    (fun o => pyStrip o.label)).filter (fun o => o != "" && o != "All")

/-- The single body row of the table: the f-string
`<tr><td>{city}</td><td>{area}</td></tr>` from the source. -/
def tableRowHtml (city area : String) : String :=
  "<tr><td>" ++ city ++ "</td><td>" ++ area ++ "</td></tr>"

/-- The three fixed lines pushed onto the `html` list before the loop in
`build_html_table`. -/
def tableHeaderLines : List String :=
  ["<table border=\"1\" cellspacing=\"0\" cellpadding=\"5\" style=\"border-collapse: collapse;\">",
   "<thead><tr><th>Cities</th><th>Residential Areas</th></tr></thead>",
   "<tbody>"]

/-- The (city, area) pair produced by iteration `i` of the loop in
`build_html_table`: the element at index `i` when the bound check
`i < len(...)` passes, the empty string otherwise. -/
def tableBodyRows (cities complexes : List String) :
    List (String × String) :=
  (List.range (max cities.length complexes.length)).map (fun i =>
    (if h : i < cities.length then cities.get ⟨i, h⟩ else "",
     if h : i < complexes.length then complexes.get ⟨i, h⟩ else ""))

/-- `build_html_table` from the source: header lines, one formatted row
per loop iteration, closing line, joined with newlines. -/
def build_html_table (cities complexes : List String) : String :=
  String.intercalate "\n"
    (tableHeaderLines
      ++ (tableBodyRows cities complexes).map (fun p => tableRowHtml p.1 p.2)
      ++ ["</tbody></table>"])

/-- `build_html_table` with Python list indexing modelled as the fallible
operation it is: `cities[i]` is `List.get?`, returning `none` where Python
would raise `IndexError`; the guard `i < len(...)` decides, as in the
source, whether indexing is attempted at all. `none` overall means the
function would have raised. -/
def build_html_table_checked (cities complexes : List String) :
    Option String :=
  ((List.range (max cities.length complexes.length)).mapM
    (fun i =>
      (if i < cities.length then cities.get? i else pure "").bind
        (fun city =>
          (if i < complexes.length then complexes.get? i else pure "").bind
            (fun area => pure (tableRowHtml city area))))).bind
    (fun rows => pure (String.intercalate "\n"
      (tableHeaderLines ++ rows ++ ["</tbody></table>"])))

/-- The fixed source URL from the configuration block. -/
def URL : String :=
  "https://www.stwdo.de/en/living-houses-application/current-housing-offers"

/-- The email body built by `send_email_alert`: the f-string with the
fixed link to `URL` and the supplied table interpolated. -/
def emailBody (html_table : String) : String :=
  "\n    <html>\n      <body>\n        <p>Changes detected in STWDO housing availability:</p>\n        <p>\n          Link: <a href=\"" ++ URL
    ++ "\">STWDO Housing Offers</a>\n        </p>\n        " ++ html_table
    ++ "\n      </body>\n    </html>\n    "

/-- An observable effect of a run: one SMTP delivery attempt carrying the
message body, or one console line printed. -/
inductive Event where
  | emailAttempt (body : String)
  | consoleLine (line : String)
deriving DecidableEq, Repr

/-- Whether an event is an SMTP delivery attempt. -/
def Event.isEmailAttempt : Event → Bool
  | Event.emailAttempt _ => true
  | Event.consoleLine _ => false

/-- Whether an event is a console line. -/
def Event.isConsoleLine : Event → Bool
  | Event.emailAttempt _ => false
  | Event.consoleLine _ => true

/-- Number of SMTP delivery attempts in a trace. -/
def countEmailAttempts (events : List Event) : Nat :=
  (events.filter Event.isEmailAttempt).length

/-- `send_email_alert` from the source. The outcome of the SMTP session is an
input (`Except.error e` carries the message of the exception raised during
connection, STARTTLS, login or submission). The attempt itself always
happens; on success a timestamped success line is printed, and on failure
the exception is caught — never re-raised, so the function is total — and
a timestamped failure line with the exception message is printed. `ts` is
the value of `get_timestamp()`. -/
def send_email_alert (ts : String) (smtp : Except String Unit)
    (html_table : String) : List Event :=
  match smtp with
  | Except.ok _ =>
      [Event.emailAttempt (emailBody html_table),
       Event.consoleLine (ts ++ " Email alert sent!")]
  | Except.error e =>
      [Event.emailAttempt (emailBody html_table),
       Event.consoleLine (ts ++ " Failed to send email: " ++ e)]

/-- `fetch_housing_page` from the source: the network outcome is an input
(`Except.error e` carries the message of the `requests.RequestException`);
on failure a `RuntimeError` wrapping the cause message is raised, modelled
as the error branch of `Except`. -/
def fetch_housing_page (net : Except String Document) :
    Except String Document :=
  match net with
  | Except.error e => Except.error ("Failed to fetch page: " ++ e)
  | Except.ok d => Except.ok d

/-- The `name` attribute of the city dropdown, from `main`. -/
def cityField : String := "tx_openimmo_list[tx_openimmo_list][city]"

/-- The `name` attribute of the residential-complex dropdown, from
`main`. -/
def complexField : String :=
  "tx_openimmo_list[tx_openimmo_list][residentialComplex]"

/-- `main` from the source (named `main_run` here since Lean reserves `main`): fetch, extract both option lists, and either
build the table and send the alert (when either list is non-empty, the
Python truthiness test) or print the timestamped no-availability line.
The result pairs the outcome of the run (`Except.error` = the uncaught
exception terminating the run) with the trace of observable events. -/
def main_run (ts : String) (net : Except String Document)
    (smtp : Except String Unit) : Except String Unit × List Event :=
  match fetch_housing_page net with
  | Except.error e => (Except.error e, [])
  | Except.ok soup =>
      let cities := extract_options soup cityField
      let complexes := extract_options soup complexField
      if !cities.isEmpty || !complexes.isEmpty then
        (Except.ok (), send_email_alert ts smtp
          (build_html_table cities complexes))
      else
        (Except.ok (),
         [Event.consoleLine (ts ++ " No housing availability detected.")])

/-- A page whose city select holds one enabled option: makes the
availability branch of `main` reachable. -/
def docAvail : Document :=
  Document.mk [SelectElem.mk cityField
    [SelectChild.opt (OptionElem.mk "Dortmund" false)]]

/-- A page with both target selects present but carrying only the
sentinel placeholder and a disabled option: both extractions are empty. -/
def docEmpty : Document :=
  Document.mk
    [SelectElem.mk cityField
      [SelectChild.opt (OptionElem.mk "All" false),
       SelectChild.opt (OptionElem.mk "Dortmund" true)],
     SelectElem.mk complexField
      [SelectChild.opt (OptionElem.mk "All" false)]]

/-- A page whose select holds the same label twice (once padded with
whitespace): exercises trimming and duplicate pass-through. -/
def docDup : Document :=
  Document.mk [SelectElem.mk "f"
    [SelectChild.opt (OptionElem.mk " Neu " false),
     SelectChild.opt (OptionElem.mk "Neu" false)]]

/-- A page whose select holds only filtered-out labels: sentinel,
empty, whitespace-only, and a disabled real option. -/
def docFiltered : Document :=
  Document.mk [SelectElem.mk "f"
    [SelectChild.opt (OptionElem.mk "All" false),
     SelectChild.opt (OptionElem.mk "" false),
     SelectChild.opt (OptionElem.mk "   " false),
     SelectChild.opt (OptionElem.mk "Dorstfeld" true)]]

/-- A page whose matching select holds an enabled option only as a
nested descendant (inside a wrapper such as `<optgroup>`), not as a
direct child. -/
def docNested : Document :=
  Document.mk [SelectElem.mk "f"
    [SelectChild.group [OptionElem.mk "Dorstfeld" false]]]

/-- A page with one select whose name differs from the queried one. -/
def docOtherName : Document :=
  Document.mk [SelectElem.mk "g"
    [SelectChild.opt (OptionElem.mk "Dortmund" false)]]

/-- A page whose select holds the sentinel padded with whitespace: its
raw label differs from `"All"` but its trimmed text is the sentinel. -/
def docPaddedAll : Document :=
  Document.mk [SelectElem.mk "f"
    [SelectChild.opt (OptionElem.mk "  All " false),
     SelectChild.opt (OptionElem.mk "Eichlinghofen" false)]]

theorem dite_get_eq_getD (l : List String) (i : Nat) :
    (if h : i < l.length then l.get ⟨i, h⟩ else "") = l.getD i "" := by
  rcases Nat.lt_or_ge i l.length with h | h
  · simp [h, List.getD, List.getElem?_eq_getElem h, List.get_eq_getElem]
  · simp [Nat.not_lt.mpr h, List.getD, List.getElem?_eq_none h]

theorem mapM_opt_eq_some_map {α β : Type} (f : α → Option β) (g : α → β)
    (l : List α) (h : ∀ a ∈ l, f a = some (g a)) :
    l.mapM f = some (l.map g) := by
  induction l with
  | nil => rfl
  | cons a t ih =>
      rw [List.mapM_cons, h a (List.mem_cons_self a t), ih]
      · rfl
      · exact fun b hb => h b (List.mem_cons_of_mem a hb)

theorem checkedIndex_eq (l : List String) (i : Nat) :
    (if i < l.length then l.get? i else pure "") =
      some (if h : i < l.length then l.get ⟨i, h⟩ else "") := by
  split
  case isTrue h => simp [List.get?_eq_get h, h]
  case isFalse h => simp [h]

theorem flatMap_sublist_flatMap {α β : Type} (f g : α → List β)
    (l : List α) (h : ∀ a ∈ l, List.Sublist (f a) (g a)) :
    List.Sublist (l.flatMap f) (l.flatMap g) := by
  induction l with
  | nil => exact List.Sublist.refl _
  | cons a t ih =>
      rw [List.flatMap_cons, List.flatMap_cons]
      exact List.Sublist.append (h a (List.mem_cons_self a t))
        (ih (fun b hb => h b (List.mem_cons_of_mem a hb)))

theorem pyStrip_has_nonws (t : String) (h : pyStrip t ≠ "") :
    ∃ c ∈ (pyStrip t).data, c.isWhitespace = false := by
  have hr : ((t.data.dropWhile Char.isWhitespace).reverse.dropWhile
      Char.isWhitespace) ≠ [] := by
    intro h0
    apply h
    unfold pyStrip
    rw [h0]
    rfl
  have hl : 0 < ((t.data.dropWhile Char.isWhitespace).reverse.dropWhile
      Char.isWhitespace).length := List.length_pos.mpr hr
  have hnw := List.dropWhile_get_zero_not Char.isWhitespace
    (t.data.dropWhile Char.isWhitespace).reverse hl
  refine ⟨((t.data.dropWhile Char.isWhitespace).reverse.dropWhile
    Char.isWhitespace).get ⟨0, hl⟩, ?_, ?_⟩
  · have hdata : (pyStrip t).data =
        ((t.data.dropWhile Char.isWhitespace).reverse.dropWhile
          Char.isWhitespace).reverse := rfl
    rw [hdata, List.mem_reverse]
    exact List.get_mem _ 0 hl
  · simpa using hnw

/-- C5: `build_html_table` emits exactly `max (len cities) (len complexes)`
two-column body rows; row `i` holds the element at index `i` of each list
or the empty string when `i` is out of range for that list; on `[] []` the
output is the header lines and an empty body; on `["A","B"] ["X"]` the
body rows are exactly `("A","X")` and `("B","")`. -/
theorem build_html_table_rows (cities complexes : List String) :
    (tableBodyRows cities complexes).length =
      max cities.length complexes.length
    ∧ tableBodyRows cities complexes =
        (List.range (max cities.length complexes.length)).map
          (fun i => (cities.getD i "", complexes.getD i ""))
    ∧ build_html_table cities complexes =
        String.intercalate "\n"
          (tableHeaderLines
            ++ (tableBodyRows cities complexes).map
                (fun p => tableRowHtml p.1 p.2)
            ++ ["</tbody></table>"])
    ∧ tableBodyRows ["A", "B"] ["X"] = [("A", "X"), ("B", "")]
    ∧ build_html_table [] [] =
        "<table border=\"1\" cellspacing=\"0\" cellpadding=\"5\" style=\"border-collapse: collapse;\">\n<thead><tr><th>Cities</th><th>Residential Areas</th></tr></thead>\n<tbody>\n</tbody></table>" := by
  refine ⟨by simp [tableBodyRows], ?_, rfl, by decide, by rfl⟩
  unfold tableBodyRows
  apply List.map_congr_left
  intro i _
  rw [dite_get_eq_getD, dite_get_eq_getD]

/-- C9: `build_html_table` is total — with Python indexing modelled as a
fallible operation, the bound-checked variant never fails and returns
exactly the string the total embedding returns, for all inputs. -/
theorem build_html_table_checked_total (cities complexes : List String) :
    build_html_table_checked cities complexes =
      some (build_html_table cities complexes) := by
  unfold build_html_table_checked
  rw [mapM_opt_eq_some_map _
    (fun i => tableRowHtml
      (if h : i < cities.length then cities.get ⟨i, h⟩ else "")
      (if h : i < complexes.length then complexes.get ⟨i, h⟩ else ""))]
  · simp only [build_html_table, tableBodyRows, List.map_map]
    rfl
  · intro i _
    rw [checkedIndex_eq cities i]
    show (if i < complexes.length then complexes.get? i else pure "").bind
      _ = _
    rw [checkedIndex_eq]
    rfl

/-- C8: when no `<select>` with the given name exists in the document,
`extract_options` returns the empty list — selecting zero elements is
valid, and the (total) function raises nothing. -/
theorem extract_options_no_matching_select (doc : Document) (fn : String)
    (h : ∀ s ∈ doc.selects, s.name ≠ fn) :
    extract_options doc fn = [] := by
  have hf : doc.selects.filter (fun s => s.name == fn) = [] := by
    rw [List.filter_eq_nil_iff]
    intro s hs
    simp [h s hs]
  simp [extract_options, selectDirectChildOptions, hf]

/-- C8 witness: on a page whose only select is named `"g"`, querying
`"f"` yields the empty list. -/
theorem extract_options_no_matching_select_witness :
    extract_options docOtherName "f" = [] :=
  extract_options_no_matching_select docOtherName "f" (by decide)

/-- C10: the sentinel is never contained in an extraction result, and an
option whose raw label is `"  All "` (trimming to the sentinel) is
excluded even though its raw label differs from `"All"`: the comparison
runs on the trimmed text. -/
theorem extract_options_sentinel_trimmed :
    (∀ doc fn, (extract_options doc fn).contains "All" = false)
    ∧ extract_options docPaddedAll "f" = ["Eichlinghofen"] := by
  refine ⟨?_, by decide⟩
  intro doc fn
  rw [Bool.eq_false_iff]
  intro hc
  have hmem : ("All" : String) ∈ extract_options doc fn := by
    simpa using hc
  have hp := (List.mem_filter.mp hmem).2
  simp at hp

/-- C4 counterexample: on a page whose matching select holds an enabled
option only inside a nested wrapper (an `<optgroup>`-like element), the
child-combinator query of the source selects nothing, while the descendant
reading of the claim would have selected the option. -/
theorem extract_options_not_descendants :
    extract_options docNested "f" = []
    ∧ extractOptionsDescendants docNested "f" = ["Dorstfeld"]
    ∧ (extract_options docNested "f"
        == extractOptionsDescendants docNested "f") = false := by
  decide

/-- C4 (amended): `extract_options` selects only the non-disabled
`<option>` elements that are direct children (CSS `>` combinator) of the
matching select; options nested deeper contribute nothing, so the result
is always an order-preserving subsequence of the descendant-based
selection the spec describes. -/
theorem extract_options_direct_children_only (doc : Document)
    (fn : String) :
    List.Sublist (extract_options doc fn)
      (extractOptionsDescendants doc fn) := by
  unfold extract_options extractOptionsDescendants
  apply List.Sublist.filter
  apply List.Sublist.map
  unfold selectDirectChildOptions selectDescendantOptions
  apply flatMap_sublist_flatMap
  intro s _
  apply flatMap_sublist_flatMap
  intro c _
  cases c with
  | opt o => exact List.Sublist.refl _
  | group opts => exact List.nil_sublist _

/-- C3: every extracted value is non-empty, distinct from the sentinel
`"All"`, and contains a non-whitespace character; the result is the
document-order list of trimmed option texts with empty strings and the
sentinel removed, hence an order-preserving subsequence of the trimmed
texts; duplicates pass through unmodified, and the result may be empty. -/
theorem extract_options_values (doc : Document) (fn : String) :
    (extract_options doc fn).all
      (fun s => (s != "" && s != "All")
        && s.data.any (fun c => !c.isWhitespace)) = true
    ∧ extract_options doc fn =
        ((selectDirectChildOptions doc fn).map
          (fun o => pyStrip o.label)).filter
          (fun s => s != "" && s != "All")
    ∧ List.Sublist (extract_options doc fn)
        ((selectDirectChildOptions doc fn).map (fun o => pyStrip o.label))
    ∧ extract_options docDup "f" = ["Neu", "Neu"]
    ∧ extract_options docFiltered "f" = [] := by
  refine ⟨?_, rfl, List.filter_sublist _, by decide, by decide⟩
  rw [List.all_eq_true]
  intro s hs
  have hmem := List.mem_filter.mp hs
  have hp := hmem.2
  obtain ⟨o, _, ho⟩ := List.mem_map.mp hmem.1
  have hne : s ≠ "" := by
    intro h0
    rw [h0] at hp
    simp at hp
  obtain ⟨c, hc, hcw⟩ := pyStrip_has_nonws o.label (ho ▸ hne)
  rw [Bool.and_eq_true]
  refine ⟨hp, ?_⟩
  rw [List.any_eq_true]
  exact ⟨c, ho ▸ hc, by simp [hcw]⟩

/-- C1: when at least one extracted list is non-empty, the run makes
exactly one email-send attempt, whose body embeds the fixed source URL
and the rendered table, and that table has exactly
`max (len cities) (len complexes)` body rows. -/
theorem main_sends_one_alert (ts : String) (doc : Document)
    (smtp : Except String Unit)
    (h : extract_options doc cityField ≠ []
      ∨ extract_options doc complexField ≠ []) :
    countEmailAttempts (main_run ts (Except.ok doc) smtp).2 = 1
    ∧ Event.emailAttempt (emailBody (build_html_table
        (extract_options doc cityField)
        (extract_options doc complexField)))
        ∈ (main_run ts (Except.ok doc) smtp).2
    ∧ (∃ pre post, emailBody (build_html_table
        (extract_options doc cityField)
        (extract_options doc complexField)) = pre ++ (URL ++ post))
    ∧ (∃ pre post, emailBody (build_html_table
        (extract_options doc cityField)
        (extract_options doc complexField)) =
          pre ++ (build_html_table (extract_options doc cityField)
            (extract_options doc complexField) ++ post))
    ∧ (tableBodyRows (extract_options doc cityField)
        (extract_options doc complexField)).length =
        max (extract_options doc cityField).length
          (extract_options doc complexField).length := by
  have hcond : (!(extract_options doc cityField).isEmpty
      || !(extract_options doc complexField).isEmpty) = true := by
    rcases h with h | h <;> simp [List.isEmpty_iff, h]
  have htrace : main_run ts (Except.ok doc) smtp =
      (Except.ok (), send_email_alert ts smtp
        (build_html_table (extract_options doc cityField)
          (extract_options doc complexField))) := by
    simp [main_run, fetch_housing_page, hcond]
  rw [htrace]
  refine ⟨?_, ?_, ?_, ?_, by simp [tableBodyRows]⟩
  · cases smtp <;> rfl
  · cases smtp <;> exact List.mem_cons_self _ _
  · exact ⟨"\n    <html>\n      <body>\n        <p>Changes detected in STWDO housing availability:</p>\n        <p>\n          Link: <a href=\"",
      "\">STWDO Housing Offers</a>\n        </p>\n        "
        ++ (build_html_table (extract_options doc cityField)
          (extract_options doc complexField)
          ++ "\n      </body>\n    </html>\n    "),
      by simp [emailBody, String.append_assoc]⟩
  · exact ⟨"\n    <html>\n      <body>\n        <p>Changes detected in STWDO housing availability:</p>\n        <p>\n          Link: <a href=\""
        ++ (URL ++ "\">STWDO Housing Offers</a>\n        </p>\n        "),
      "\n      </body>\n    </html>\n    ",
      by simp [emailBody, String.append_assoc]⟩

/-- C1 witness: on a page whose city select holds the enabled option
`"Dortmund"`, the run makes exactly one email-send attempt. -/
theorem main_sends_one_alert_witness :
    countEmailAttempts
      (main_run "[2025-01-01 00:00:00]" (Except.ok docAvail)
        (Except.ok ())).2 = 1 :=
  (main_sends_one_alert "[2025-01-01 00:00:00]" docAvail (Except.ok ())
    (Or.inl (by decide))).1

/-- C2: when both extracted lists are empty, the run attempts no email
send and its only observable effect is the timestamped
no-availability console line. -/
theorem main_no_availability (ts : String) (doc : Document)
    (smtp : Except String Unit)
    (h1 : extract_options doc cityField = [])
    (h2 : extract_options doc complexField = []) :
    main_run ts (Except.ok doc) smtp =
      (Except.ok (),
       [Event.consoleLine (ts ++ " No housing availability detected.")])
    ∧ countEmailAttempts (main_run ts (Except.ok doc) smtp).2 = 0 := by
  have htrace : main_run ts (Except.ok doc) smtp =
      (Except.ok (),
       [Event.consoleLine (ts ++ " No housing availability detected.")]) := by
    simp [main_run, fetch_housing_page, h1, h2]
  exact ⟨htrace, by rw [htrace]; rfl⟩

/-- C2 witness: on a page whose selects hold only the sentinel and a
disabled option, the run prints the no-availability line and attempts
no email send. -/
theorem main_no_availability_witness :
    main_run "[2025-01-01 00:00:00]" (Except.ok docEmpty) (Except.ok ()) =
      (Except.ok (),
       [Event.consoleLine
         "[2025-01-01 00:00:00] No housing availability detected."]) :=
  (main_no_availability "[2025-01-01 00:00:00]" docEmpty (Except.ok ())
    (by decide) (by decide)).1

/-- C6: a failed fetch raises an error wrapping the underlying cause
message; the orchestrator does not catch it, so the run terminates with
that error and the trace holds zero email-send attempts. -/
theorem main_fetch_failure (ts e : String) (smtp : Except String Unit) :
    fetch_housing_page (Except.error e) =
      Except.error ("Failed to fetch page: " ++ e)
    ∧ main_run ts (Except.error e) smtp =
        (Except.error ("Failed to fetch page: " ++ e), [])
    ∧ countEmailAttempts (main_run ts (Except.error e) smtp).2 = 0 :=
  ⟨rfl, rfl, rfl⟩

/-- C7: an exception in the SMTP step is caught inside
`send_email_alert`: the function still returns a trace (never re-raises),
the only console line of that trace is the single timestamped failure line
carrying the exception message, and the surrounding run always finishes
with the success outcome. -/
theorem send_email_alert_failure_caught (ts e html_table : String) :
    send_email_alert ts (Except.error e) html_table =
      [Event.emailAttempt (emailBody html_table),
       Event.consoleLine (ts ++ " Failed to send email: " ++ e)]
    ∧ (send_email_alert ts (Except.error e) html_table).filter
        Event.isConsoleLine =
        [Event.consoleLine (ts ++ " Failed to send email: " ++ e)]
    ∧ ∀ doc : Document,
        (main_run ts (Except.ok doc) (Except.error e)).1 = Except.ok () := by
  refine ⟨rfl, rfl, ?_⟩
  intro doc
  simp only [main_run, fetch_housing_page]
  split <;> rfl
